import Mathlib

/-!
Verification of the specification-extraction and normalization engine of the
motorSnatcher repository (scrape_product.py / scrape_battery.py), as a shallow
embedding.  Strings are Lean strings (lists of characters); Python dicts are
association lists in insertion order (Python dict iteration order); Python
floats are modelled by exact rationals (the doc comments on the affected
definitions state this abstraction); fallible parsing returns Option.
-/

/-! ### Character classes (Python semantics, ASCII range)

`pySpace` covers the characters stripped by Python `str.strip()` and matched
by the regex class `\s` (space, tab, newline, carriage return, vertical tab,
form feed).  `digitChar` is the ASCII digit class `\d` (Unicode digits not
modelled; all inputs considered here are ASCII).  `numChar` is the regex
class `[\d.]` of `clean_number`; `cmpChar` is its class `[<>~]`. -/

def pySpace (c : Char) : Bool :=
  c.toNat == 32 || c.toNat == 9 || c.toNat == 10 || c.toNat == 13 || c.toNat == 11 || c.toNat == 12

def digitChar (c : Char) : Bool :=
  48 ≤ c.toNat && c.toNat ≤ 57

def numChar (c : Char) : Bool :=
  digitChar c || c.toNat == 46

def cmpChar (c : Char) : Bool :=
  c.toNat == 60 || c.toNat == 62 || c.toNat == 126

/-- Python `str.strip()`: drop leading and trailing whitespace. -/
def pyStripList (cs : List Char) : List Char :=
  ((cs.dropWhile pySpace).reverse.dropWhile pySpace).reverse

/-- Python `str.strip()` on a string. -/
def pyStrip (s : String) : String :=
  (pyStripList s.toList).asString

/-- Python `str.lower()` (ASCII case folding). -/
def lowerStr (s : String) : String :=
  (s.toList.map Char.toLower).asString

/-- Containment test used for Python substring tests: `pat` starts `hay` here. -/
def subInAux (pat : List Char) : List Char → Bool
  | [] => pat.isEmpty
  | c :: rest => pat.isPrefixOf (c :: rest) || subInAux pat rest

/-- Python `pat in hay` on strings (substring containment). -/
def strIn (pat hay : String) : Bool :=
  subInAux pat.toList hay.toList

/-- First entry of a list on which `step` fires, returning its result.  This is
the shape of every `for spec_key, value in all_specs.items(): ... return ...`
loop in the source: the loop body either returns a value or continues. -/
def firstHit (step : String × String → Option String) : List (String × String) → Option String
  | [] => none
  | e :: rest =>
    match step e with
    | some r => some r
    | none => firstHit step rest

/-- Left-biased choice on options (Python dict-merge precedence helper). -/
def firstSome (a b : Option String) : Option String :=
  match a with
  | some v => some v
  | none => b

/-! ### Normalizers: `clean_number` and `clean_value` (scrape_product.py 81-95) -/

/-- The `\s*([\d.]+)` tail of the pattern of `clean_number`: skip whitespace
greedily, then capture a non-empty `[\d.]` run. -/
def numRunAfterSpaces (cs : List Char) : Option (List Char) :=
  if (cs.dropWhile pySpace).takeWhile numChar = [] then none
  else some ((cs.dropWhile pySpace).takeWhile numChar)

/-- One attempt of the pattern `[<>~]?\s*([\d.]+)` anchored at the head of
`cs`, returning the capture group.  Deterministic greedy matching is faithful
here because the three character classes are pairwise disjoint, so the regex
engine's backtracking can never succeed where the greedy pass fails. -/
def numMatchAt (cs : List Char) : Option (List Char) :=
  match cs with
  | [] => numRunAfterSpaces []
  | c :: rest => if cmpChar c then numRunAfterSpaces rest else numRunAfterSpaces (c :: rest)

/-- Python `re.search` of the pattern of `clean_number`: try every start
position from the left, return the capture group of the leftmost match. -/
def searchNum : List Char → Option (List Char)
  | [] => none
  | c :: rest =>
    match numMatchAt (c :: rest) with
    | some g => some g
    | none => searchNum rest

/-- scrape_product.py 81-87 `clean_number`: strip, search for
`[<>~]?\s*([\d.]+)`, return the group on a match and the stripped text
otherwise (empty input short-circuits to the empty string). -/
def clean_number (s : String) : String :=
  if s = "" then ""
  else
    match searchNum (pyStripList s.toList) with
    | some g => g.asString
    | none => (pyStripList s.toList).asString

/-- The first run of digit-or-dot characters of a character list: drop up to
the first `[\d.]` character, then take the maximal `[\d.]` run.  Stated from
the (amended) spec wording of the numeric cleaner, to be compared with the
regex search `searchNum` of the source. -/
def firstNumRun (cs : List Char) : Option (List Char) :=
  match cs.dropWhile (fun c => !numChar c) with
  | [] => none
  | c :: rest => some ((c :: rest).takeWhile numChar)

/-- Whitespace-run collapsing: each maximal run of `\s` characters becomes one
space.  The flag records whether the previous character was whitespace. -/
def collapseSpaces : List Char → Bool → List Char
  | [], _ => []
  | c :: rest, prevSpace =>
    if pySpace c then
      if prevSpace then collapseSpaces rest true
      else ' ' :: collapseSpaces rest true
    else c :: collapseSpaces rest false

/-- scrape_product.py 90-95 `clean_value`: `re.sub` of `\s+` with a single
space on the stripped text (empty input short-circuits). -/
def clean_value (s : String) : String :=
  if s = "" then ""
  else (collapseSpaces (pyStripList s.toList) false).asString

/-! ### Numeric model: Python `float` parsing, `int()` truncation, `str(float)`

Floating point is modelled exactly: a parsed decimal is kept as a pair
`mant / 10 ^ exp` over the unbounded integers.  Every `float(...)` call site
in the source receives an output of `clean_number`, which is either a
`[\d.]+` group or digit-free dot-free stripped text; on those inputs this
exact parse agrees with CPython's (special literals such as inf or nan and
exponent forms cannot occur there and are not modelled).  The subsequent
double-precision rounding of `* 100` and `/ 1000` is abstracted to exact
arithmetic; the concrete inputs evaluated below are chosen so that the exact
result and the CPython double result coincide. -/

/-- An exact decimal number: the value `mant / 10 ^ exp`. -/
structure PyNum where
  mant : ℤ
  exp : ℕ
deriving DecidableEq

/-- Negation. -/
def PyNum.neg (a : PyNum) : PyNum := ⟨-a.mant, a.exp⟩

/-- The comparison `value < 1` of Python's `if num < 1`, on the exact
representation: `mant / 10 ^ exp < 1` iff `mant < 10 ^ exp`. -/
def PyNum.ltOne (a : PyNum) : Bool := a.mant < (10 : ℤ) ^ a.exp

/-- Multiplication by 100 (`num * 100`). -/
def PyNum.mul100 (a : PyNum) : PyNum := ⟨a.mant * 100, a.exp⟩

/-- Division by 1000 (`num / 1000`). -/
def PyNum.div1000 (a : PyNum) : PyNum := ⟨a.mant, a.exp + 3⟩

/-- Python `int()` on a (modelled) float: truncation toward zero. -/
def pyTrunc (a : PyNum) : ℤ :=
  if 0 ≤ a.mant then ((a.mant.toNat / 10 ^ a.exp : ℕ) : ℤ)
  else -(((-a.mant).toNat / 10 ^ a.exp : ℕ) : ℤ)

/-- Value of an ASCII digit string read left to right. -/
def digitsToNat (ds : List Char) : ℕ :=
  ds.foldl (fun acc c => acc * 10 + (c.toNat - 48)) 0

/-- Parse an unsigned finite decimal literal: digits, optionally a dot and
further digits, at least one digit overall (so `"."` alone fails, as in
Python `float(".")`). -/
def parseUnsigned (cs : List Char) : Option PyNum :=
  let intDigits := cs.takeWhile digitChar
  let rest := cs.dropWhile digitChar
  match rest with
  | [] => if intDigits = [] then none else some ⟨(digitsToNat intDigits : ℕ), 0⟩
  | '.' :: frac =>
    if frac.all digitChar ∧ (intDigits ≠ [] ∨ frac ≠ []) then
      some ⟨(digitsToNat intDigits * 10 ^ frac.length + digitsToNat frac : ℕ), frac.length⟩
    else none
  | _ => none

/-- Modelled from Python `float(s)` restricted to finite decimal literals:
strip whitespace, optional sign, unsigned decimal.  Returns `none` where
CPython raises `ValueError`. -/
def pyFloat (s : String) : Option PyNum :=
  match pyStripList s.toList with
  | '+' :: rest => parseUnsigned rest
  | '-' :: rest => (parseUnsigned rest).map PyNum.neg
  | t => parseUnsigned t

/-- Zero-pad a digit string on the left to length `k`. -/
def padZeros (k : ℕ) (s : String) : String :=
  (List.replicate (k - s.length) '0').asString ++ s

/-- Decimal rendering of `n / 10 ^ k` with exactly `k` fraction digits. -/
def natDecimalStr (n k : ℕ) : String :=
  toString (n / 10 ^ k) ++ "." ++ padZeros k (toString (n % 10 ^ k))

/-- Remove factors of ten shared between the mantissa and the exponent, so
the decimal rendering carries no trailing zero in its fraction. -/
def stripZeros : ℤ → ℕ → ℤ × ℕ
  | m, 0 => (m, 0)
  | m, e + 1 => if Int.emod m 10 = 0 then stripZeros (Int.ediv m 10) e else (m, e + 1)

/-- Modelled from Python `str(float)`: exact shortest decimal rendering of
the value (integers render with a trailing `.0` exactly as CPython does).
On the short quotients arising here (such as 1500/1000 and 150/1000) this
coincides with CPython's repr of the corresponding double. -/
def pyFloatStr (a : PyNum) : String :=
  match stripZeros a.mant a.exp with
  | (m, 0) => toString m ++ ".0"
  | (m, e + 1) => (if m < 0 then "-" else "") ++ natDecimalStr m.natAbs (e + 1)

/-! ### Python dict model and the merge policy (scrape_product.py 319) -/

/-- Lookup in an association list modelling a Python dict (first binding of
the key wins; keys of a genuine dict are unique). -/
def dictGet : List (String × String) → String → Option String
  | [], _ => none
  | (k1, v) :: rest, k => if k1 = k then some v else dictGet rest k

/-- Python `{**a, **b}` / `a.update(b)`: entries of `a` in order with values
overridden by `b`, followed by the entries of `b` whose key is absent from
`a`. -/
def pyUpdate (a b : List (String × String)) : List (String × String) :=
  a.map (fun kv =>
    match dictGet b kv.1 with
    | some v => (kv.1, v)
    | none => kv)
  ++ b.filter (fun kv => (dictGet a kv.1).isNone)

/-- scrape_product.py 319: `all_specs = {**regex_specs, **general_info,
**spec_table}` — merge order regex < list < table. -/
def mergeSpecs (regex_specs general_info spec_table : List (String × String)) :
    List (String × String) :=
  pyUpdate (pyUpdate regex_specs general_info) spec_table

/-! ### Motor engine: scrape_product.py -/

namespace ScrapeProduct

/-- Inner exact-match loop of `get_spec` (scrape_product.py 332-337): an entry
matches when its lower-cased key equals the lower-cased alias and its value is
truthy (non-empty). -/
def exactStep (keyLower : String) (kv : String × String) : Option String :=
  if lowerStr kv.1 = keyLower ∧ kv.2 ≠ "" then some kv.2 else none

/-- Inner substring-match loop of `get_spec` (scrape_product.py 340-346): an
entry matches when the alias is contained in the key or the key in the alias
(both lower-cased) and the value is truthy. -/
def substrStep (keyLower : String) (kv : String × String) : Option String :=
  if (strIn keyLower (lowerStr kv.1) || strIn (lowerStr kv.1) keyLower) ∧ kv.2 ≠ "" then
    some kv.2
  else none

/-- scrape_product.py 321-347 `get_spec`: walk the aliases in order; per alias
first the exact pass over the map, then (unless `ex`) the substring pass; a
hit is cleaned with `clean_number` when `cl` is true and with `clean_value`
otherwise; no alias matching yields the empty string. -/
def get_spec (specs : List (String × String)) : List String → Bool → Bool → String
  | [], _, _ => ""
  | key :: rest, cl, ex =>
    match firstHit (exactStep (lowerStr key)) specs with
    | some v => if cl then clean_number v else clean_value v
    | none =>
      if ex then get_spec specs rest cl ex
      else
        match firstHit (substrStep (lowerStr key)) specs with
        | some v => if cl then clean_number v else clean_value v
        | none => get_spec specs rest cl ex

/-- Stated from the claim's words for the Field Resolver (with the
empty-value skip of the source): one alias's attempt — the exact pass, and
only on its failure the substring pass. -/
def aliasHit (specs : List (String × String)) (al : String) : Option String :=
  match firstHit (exactStep (lowerStr al)) specs with
  | some v => some v
  | none => firstHit (substrStep (lowerStr al)) specs

/-- Stated from the claim's words: the first alias in declared order that
produces any match wins; later aliases are never consulted. -/
def resolveAliases (specs : List (String × String)) : List String → Option String
  | [] => none
  | a :: rest =>
    match aliasHit specs a with
    | some v => some v
    | none => resolveAliases specs rest

/-- Stated from the claim's words: resolved field value — the winning alias's
value, normalized; the empty string when no alias matches. -/
def resolveField (specs : List (String × String)) (aliases : List String) (cl : Bool) : String :=
  match resolveAliases specs aliases with
  | some v => if cl then clean_number v else clean_value v
  | none => ""

/-- Key test of `get_no_load_current` (scrape_product.py 354): the lower-cased
key contains "no", "load" and "current". -/
def nlcKey (k : String) : Bool :=
  strIn "no" (lowerStr k) && strIn "load" (lowerStr k) && strIn "current" (lowerStr k)

/-- Milliamp test of `get_no_load_current` (scrape_product.py 355): "ma" occurs
in the lower-cased key or in the lower-cased value. -/
def maCond (k v : String) : Bool :=
  strIn "ma" (lowerStr k) || strIn "ma" (lowerStr v)

/-- Loop body of `get_no_load_current` (scrape_product.py 353-364): on a
matched key, the milliamp branch converts (skipping the entry when the
cleaned value is empty or unparseable), the other branch returns the cleaned
value unconditionally. -/
def nlcStep (kv : String × String) : Option String :=
  if nlcKey kv.1 then
    if maCond kv.1 kv.2 then
      (pyFloat (clean_number kv.2)).map (fun q => pyFloatStr q.div1000)
    else some (clean_number kv.2)
  else none

/-- scrape_product.py 350-365 `get_no_load_current`. -/
def get_no_load_current (specs : List (String × String)) : String :=
  (firstHit nlcStep specs).getD ""

/-- scrape_product.py 367-378 `get_efficiency`: resolve "efficiency"; a value
parsing below 1 is scaled by 100 and truncated with `int()`; otherwise the
value is reported unchanged. -/
def get_efficiency (specs : List (String × String)) : String :=
  let val := get_spec specs ["efficiency"] true false
  if val = "" then ""
  else
    match pyFloat val with
    | some q => if q.ltOne then toString (pyTrunc q.mul100) else val
    | none => val

/-- Key test of `get_weight` (scrape_product.py 384): "weight" in the
lower-cased key and "shipping" not in it. -/
def weightKey (k : String) : Bool :=
  strIn "weight" (lowerStr k) && !strIn "shipping" (lowerStr k)

/-- Kilogram test of `get_weight` (scrape_product.py 385): "(kg)" in the
lower-cased key or "kg" in the lower-cased value. -/
def weightKgCond (k v : String) : Bool :=
  strIn "(kg)" (lowerStr k) || strIn "kg" (lowerStr v)

/-- Loop body of `get_weight` (scrape_product.py 383-394): kilogram-indicated
entries return the cleaned value; entries whose key contains "(g)" convert
grams to kilograms (skipped when empty or unparseable); all other matched
entries are skipped. -/
def weightStep (kv : String × String) : Option String :=
  if weightKey kv.1 then
    if weightKgCond kv.1 kv.2 then some (clean_number kv.2)
    else if strIn "(g)" (lowerStr kv.1) then
      (pyFloat (clean_number kv.2)).map (fun q => pyFloatStr q.div1000)
    else none
  else none

/-- scrape_product.py 380-395 `get_weight`, with its exact-match `get_spec`
fallback on line 395. -/
def get_weight (specs : List (String × String)) : String :=
  match firstHit weightStep specs with
  | some s => s
  | none => get_spec specs ["weight (kg)", "weight:", "weight_kg"] true true

/-- scrape_product.py 33-55 `CSV_COLUMNS`. -/
def CSV_COLUMNS : List String :=
  ["Product Name", "URL", "Stock Status", "Price (INR)", "Voltage (V)", "Power (W)",
   "Rated Current (A)", "No Load Current (A)", "Rated Torque (kg-cm)", "Stall Torque (kg-cm)",
   "RPM", "Efficiency (%)", "Weight (kg)", "Shipping Weight (kg)", "Shipping Dimensions (cm)",
   "Shaft Diameter (mm)", "Motor Type", "Model No.", "Gearbox", "Dimensions", "Cable Length (cm)"]

/-- scrape_product.py 311-421 `scrape_product` after a successful fetch and
parse: `product_name`, `stock_status` and `price` are the outputs of the
extractor collaborators; `regex_specs`, `general_info` and `spec_table` the
three harvested RawSpecMaps.  The record is the result dict of lines 397-419
over the merged map of line 319. -/
def scrape_product (product_name clean_url stock_status price : String)
    (regex_specs general_info spec_table : List (String × String)) :
    List (String × String) :=
  let all_specs := mergeSpecs regex_specs general_info spec_table
  [("Product Name", product_name),
   ("URL", clean_url),
   ("Stock Status", stock_status),
   ("Price (INR)", price),
   ("Voltage (V)", get_spec all_specs ["rated voltage", "operating voltage", "voltage", "vdc"] true false),
   ("Power (W)", get_spec all_specs ["operating power", "rated power", "power"] true false),
   ("Rated Current (A)", get_spec all_specs ["rated current (a)", "rated current", "rate current"] true false),
   ("No Load Current (A)", get_no_load_current all_specs),
   ("Rated Torque (kg-cm)", get_spec all_specs ["rated torque", "rate torque"] true false),
   ("Stall Torque (kg-cm)", get_spec all_specs ["stall torque"] true false),
   ("RPM", get_spec all_specs ["rated speed (rpm)", "rated speed", "speed (rpm)", "rpm"] true false),
   ("Efficiency (%)", get_efficiency all_specs),
   ("Weight (kg)", get_weight all_specs),
   ("Shipping Weight (kg)", get_spec all_specs ["shipping weight", "shipping_weight"] false false),
   ("Shipping Dimensions (cm)", get_spec all_specs ["shipping dimensions", "shipping_dimensions"] false false),
   ("Shaft Diameter (mm)", get_spec all_specs ["shaft diameter", "shaft"] true false),
   ("Motor Type", get_spec all_specs ["motor type", "item type", "brushed", "brushless"] false false),
   ("Model No.", get_spec all_specs ["model", "model no"] false false),
   ("Gearbox", get_spec all_specs ["gearbox", "gear box", "gear"] false false),
   ("Dimensions", get_spec all_specs ["dimensions", "dimension", "lxd"] false false),
   ("Cable Length (cm)", get_spec all_specs ["cable length", "cable"] true false)]

end ScrapeProduct

/-! ### Battery engine: scrape_battery.py -/

namespace ScrapeBattery

/-- Loop body of the battery `get_spec` (scrape_battery.py 93-97): with
`ex` set, only key equality against the lower-cased alias; otherwise only
one-directional containment of the alias in the map key.  Keys are not
lower-cased here and empty values are not skipped (both unlike in the motor
engine). -/
def specStep (ex : Bool) (keyLower : String) (kv : String × String) : Option String :=
  if ex then
    if kv.1 = keyLower then some kv.2 else none
  else
    if strIn keyLower kv.1 then some kv.2 else none

/-- scrape_battery.py 88-98 `get_spec`. -/
def get_spec (specs : List (String × String)) : List String → Bool → Bool → String
  | [], _, _ => ""
  | key :: rest, cl, ex =>
    match firstHit (specStep ex (lowerStr key)) specs with
    | some v => if cl then clean_number v else clean_value v
    | none => get_spec specs rest cl ex

/-- Loop body of the battery `get_weight` (scrape_battery.py 102-108):
non-shipping weight keys yield their cleaned value, skipped when it is
empty. -/
def batWeightStep (kv : String × String) : Option String :=
  if strIn "weight" (lowerStr kv.1) && !strIn "shipping" (lowerStr kv.1) then
    if clean_number kv.2 = "" then none else some (clean_number kv.2)
  else none

/-- scrape_battery.py 100-109 `get_weight`. -/
def get_weight (specs : List (String × String)) : String :=
  (firstHit batWeightStep specs).getD ""

/-- Loop body of `get_dimension` (scrape_battery.py 113-115): first key
containing the axis name yields its cleaned value. -/
def dimStep (dimType : String) (kv : String × String) : Option String :=
  if strIn dimType (lowerStr kv.1) then some (clean_number kv.2) else none

/-- scrape_battery.py 111-116 `get_dimension`. -/
def get_dimension (specs : List (String × String)) (dimType : String) : String :=
  (firstHit (dimStep dimType) specs).getD ""

/-- Individual-axis words excluded from the combined-dimensions key
(scrape_battery.py 123). -/
def axisWords : List String := ["thickness", "breadth", "length", "width", "height"]

/-- Combined-dimensions key test (scrape_battery.py 121-124): contains
"dimension", is not a shipping key, and names no individual axis. -/
def fullDimKey (k : String) : Bool :=
  strIn "dimension" (lowerStr k) && !strIn "shipping" (lowerStr k) &&
    !(axisWords.any (fun x => strIn x (lowerStr k)))

/-- Loop body of `get_full_dimensions` (scrape_battery.py 120-125). -/
def fullDimStep (kv : String × String) : Option String :=
  if fullDimKey kv.1 then some (clean_value kv.2) else none

/-- scrape_battery.py 118-132 `get_full_dimensions`: prefer an explicit
combined-dimensions value; otherwise assemble thickness, breadth-or-width and
length only when all three are non-empty. -/
def get_full_dimensions (specs : List (String × String)) : String :=
  match firstHit fullDimStep specs with
  | some s => s
  | none =>
    if get_dimension specs "thickness" ≠ "" ∧
        (if get_dimension specs "breadth" = "" then get_dimension specs "width"
         else get_dimension specs "breadth") ≠ "" ∧
        get_dimension specs "length" ≠ "" then
      get_dimension specs "thickness" ++ " × " ++
        (if get_dimension specs "breadth" = "" then get_dimension specs "width"
         else get_dimension specs "breadth") ++ " × " ++
        get_dimension specs "length" ++ " mm"
    else ""

/-- scrape_battery.py 29-52 `CSV_COLUMNS`. -/
def CSV_COLUMNS : List String :=
  ["Product Name", "URL", "Stock Status", "Price (INR)", "Model No.", "Nominal Voltage (V)",
   "Capacity (mAh)", "Continuous Charge Current", "Continuous Discharge Current",
   "Max Charge Rate", "Max Discharge Rate", "Connector Type", "Life Cycles", "Application",
   "Thickness (mm)", "Breadth (mm)", "Length (mm)", "Dimensions", "Weight (g)",
   "Shipping Weight (kg)", "Shipping Dimensions (cm)", "Additional Specs"]

/-- scrape_battery.py 55-159 `scrape_battery` after a successful fetch and
parse: an empty extracted product name signals absence (`None`, line 70-71);
otherwise the result dict of lines 134-157 over the merged map of lines
84-86 (general_info overwritten by spec_table; no regex source here). -/
def scrape_battery (product_name clean_url stock_status price : String)
    (general_info spec_table : List (String × String)) :
    Option (List (String × String)) :=
  if product_name = "" then none
  else
    let all_specs := pyUpdate general_info spec_table
    some
      [("Product Name", product_name),
       ("URL", clean_url),
       ("Stock Status", stock_status),
       ("Price (INR)", price),
       ("Model No.", get_spec all_specs ["model no", "model"] false false),
       ("Nominal Voltage (V)", get_spec all_specs ["nominal voltage", "voltage"] true false),
       ("Capacity (mAh)", get_spec all_specs ["nominal capacity", "capacity"] true false),
       ("Continuous Charge Current", get_spec all_specs ["continuous charge current", "charge current"] false false),
       ("Continuous Discharge Current", get_spec all_specs ["continuous dischg", "continuous discharge", "discharge current"] false false),
       ("Max Charge Rate", get_spec all_specs ["max. charge rate", "max charge rate", "max. charge"] false false),
       ("Max Discharge Rate", get_spec all_specs ["max discharge rate", "max. discharge", "max dischg"] false false),
       ("Connector Type", get_spec all_specs ["connector type", "connector"] false false),
       ("Life Cycles", get_spec all_specs ["life cycle", "cycle"] false false),
       ("Application", get_spec all_specs ["application"] false false),
       ("Thickness (mm)", get_dimension all_specs "thickness"),
       ("Breadth (mm)", if get_dimension all_specs "breadth" = "" then get_dimension all_specs "width"
                        else get_dimension all_specs "breadth"),
       ("Length (mm)", get_dimension all_specs "length"),
       ("Dimensions", get_full_dimensions all_specs),
       ("Weight (g)", get_weight all_specs),
       ("Shipping Weight (kg)", get_spec all_specs ["shipping weight"] false false),
       ("Shipping Dimensions (cm)", get_spec all_specs ["shipping dimensions"] false false),
       ("Additional Specs", get_spec all_specs ["additional spec"] false false)]

end ScrapeBattery

/-! ### Helper lemmas -/

theorem pySpace_not_numChar (c : Char) (h : pySpace c = true) : numChar c = false := by
  simp only [pySpace, Bool.or_eq_true, beq_iff_eq] at h
  simp only [numChar, digitChar, Bool.or_eq_true, Bool.and_eq_true, beq_iff_eq,
    decide_eq_true_eq, Bool.or_eq_false_iff, Bool.and_eq_false_iff, decide_eq_false_iff_not,
    not_le, beq_eq_false_iff_ne, ne_eq]
  omega

theorem numChar_not_cmpChar (c : Char) (h : numChar c = true) : cmpChar c = false := by
  simp only [numChar, digitChar, Bool.or_eq_true, Bool.and_eq_true, beq_iff_eq,
    decide_eq_true_eq] at h
  simp only [cmpChar, Bool.or_eq_false_iff, beq_eq_false_iff_ne, ne_eq]
  omega

theorem numChar_not_pySpace (c : Char) (h : numChar c = true) : pySpace c = false := by
  simp only [numChar, digitChar, Bool.or_eq_true, Bool.and_eq_true, beq_iff_eq,
    decide_eq_true_eq] at h
  simp only [pySpace, Bool.or_eq_false_iff, beq_eq_false_iff_ne, ne_eq]
  omega

theorem dropWhile_space_eq_dropWhile_nonNum (xs : List Char)
    (h : (xs.dropWhile pySpace).takeWhile numChar ≠ []) :
    xs.dropWhile (fun c => !numChar c) = xs.dropWhile pySpace := by
  induction xs with
  | nil => simp at h
  | cons c xs ih =>
    by_cases hc : pySpace c = true
    · have hnc : numChar c = false := pySpace_not_numChar c hc
      rw [List.dropWhile_cons] at h ⊢
      rw [List.dropWhile_cons]
      simp only [hc, if_true, hnc, Bool.not_false, if_true] at h ⊢
      exact ih h
    · rw [Bool.not_eq_true] at hc
      rw [List.dropWhile_cons] at h ⊢
      rw [List.dropWhile_cons]
      simp only [hc, Bool.false_eq_true, if_false] at h ⊢
      rw [List.takeWhile_cons] at h
      by_cases hn : numChar c = true
      · simp [hn]
      · rw [Bool.not_eq_true] at hn
        simp [hn] at h

theorem firstNumRun_of_numRunAfterSpaces (xs g : List Char)
    (h : numRunAfterSpaces xs = some g) : firstNumRun xs = some g := by
  unfold numRunAfterSpaces at h
  by_cases he : (xs.dropWhile pySpace).takeWhile numChar = []
  · simp [he] at h
  · rw [if_neg he] at h
    have hd := dropWhile_space_eq_dropWhile_nonNum xs he
    unfold firstNumRun
    rw [hd]
    cases hx : xs.dropWhile pySpace with
    | nil => rw [hx] at he; simp at he
    | cons c r =>
      show some (List.takeWhile numChar (c :: r)) = some g
      rw [hx] at h
      exact h

theorem pySpace_numRunAfterSpaces (c : Char) (rest : List Char) (h : pySpace c = true) :
    numRunAfterSpaces (c :: rest) = numRunAfterSpaces rest := by
  unfold numRunAfterSpaces
  rw [List.dropWhile_cons, if_pos h]

theorem searchNum_eq_firstNumRun (cs : List Char) : searchNum cs = firstNumRun cs := by
  induction cs with
  | nil => rfl
  | cons c rest ih =>
    cases hn : numChar c with
    | true =>
      have hcmp := numChar_not_cmpChar c hn
      have hsp := numChar_not_pySpace c hn
      simp [searchNum, numMatchAt, numRunAfterSpaces, firstNumRun, hcmp, hsp, hn,
        List.dropWhile_cons, List.takeWhile_cons]
    | false =>
      have hfr : firstNumRun (c :: rest) = firstNumRun rest := by
        unfold firstNumRun
        rw [List.dropWhile_cons]
        simp [hn]
      rw [hfr]
      cases hm : numMatchAt (c :: rest) with
      | some g =>
        simp only [searchNum, hm]
        by_cases hc : cmpChar c = true
        · simp only [numMatchAt, if_pos hc] at hm
          exact (firstNumRun_of_numRunAfterSpaces rest g hm).symm
        · rw [Bool.not_eq_true] at hc
          simp only [numMatchAt, hc, Bool.false_eq_true, if_false] at hm
          by_cases hs : pySpace c = true
          · rw [pySpace_numRunAfterSpaces c rest hs] at hm
            exact (firstNumRun_of_numRunAfterSpaces rest g hm).symm
          · rw [Bool.not_eq_true] at hs
            exfalso
            unfold numRunAfterSpaces at hm
            rw [List.dropWhile_cons] at hm
            simp [hs, List.takeWhile_cons, hn] at hm
      | none =>
        simp only [searchNum, hm]
        exact ih

theorem firstHit_append_none (step : String × String → Option String)
    (l1 l2 : List (String × String)) (h : ∀ e ∈ l1, step e = none) :
    firstHit step (l1 ++ l2) = firstHit step l2 := by
  induction l1 with
  | nil => rfl
  | cons e l ih =>
    have he : step e = none := h e (by simp)
    rw [List.cons_append]
    simp only [firstHit, he]
    exact ih (fun x hx => h x (by simp [hx]))

theorem firstHit_cons_some (step : String × String → Option String) (e : String × String)
    (l : List (String × String)) (r : String) (h : step e = some r) :
    firstHit step (e :: l) = some r := by
  simp only [firstHit, h]

theorem firstHit_none_of_all (step : String × String → Option String)
    (l : List (String × String)) (h : ∀ e ∈ l, step e = none) :
    firstHit step l = none := by
  induction l with
  | nil => rfl
  | cons e l ih =>
    have he : step e = none := h e (by simp)
    simp only [firstHit, he]
    exact ih (fun x hx => h x (by simp [hx]))

theorem firstHit_middle_none (step : String × String → Option String)
    (l1 l2 : List (String × String)) (x : String × String) (hx : step x = none) :
    firstHit step (l1 ++ x :: l2) = firstHit step (l1 ++ l2) := by
  induction l1 with
  | nil =>
    rw [List.nil_append, List.nil_append]
    simp only [firstHit, hx]
  | cons e l ih =>
    rw [List.cons_append, List.cons_append]
    cases h : step e with
    | some r => simp only [firstHit, h]
    | none => simp only [firstHit, h]; exact ih

theorem dictGet_append (l1 l2 : List (String × String)) (k : String) :
    dictGet (l1 ++ l2) k = firstSome (dictGet l1 k) (dictGet l2 k) := by
  induction l1 with
  | nil => rfl
  | cons e l ih =>
    rw [List.cons_append]
    obtain ⟨k1, v⟩ := e
    by_cases hk : k1 = k
    · simp only [dictGet, if_pos hk, firstSome]
    · simp only [dictGet, if_neg hk]
      exact ih

theorem dictGet_map_upd (a b : List (String × String)) (k : String) :
    dictGet (a.map (fun kv =>
        match dictGet b kv.1 with
        | some v => (kv.1, v)
        | none => kv)) k
      = (dictGet a k).map (fun v => (dictGet b k).getD v) := by
  induction a with
  | nil => rfl
  | cons e l ih =>
    obtain ⟨k1, v1⟩ := e
    rw [List.map_cons]
    cases hb : dictGet b k1 with
    | none =>
      by_cases hk : k1 = k
      · subst hk
        simp [dictGet, hb]
      · simp only [hb, dictGet, if_neg hk]
        exact ih
    | some w =>
      by_cases hk : k1 = k
      · subst hk
        simp [dictGet, hb]
      · simp only [hb, dictGet, if_neg hk]
        exact ih

theorem dictGet_filter_compl (a b : List (String × String)) (k : String)
    (h : dictGet a k = none) :
    dictGet (b.filter (fun kv => (dictGet a kv.1).isNone)) k = dictGet b k := by
  induction b with
  | nil => rfl
  | cons e l ih =>
    obtain ⟨k1, v1⟩ := e
    rw [List.filter_cons]
    by_cases ha : (dictGet a k1).isNone = true
    · rw [if_pos ha]
      by_cases hk : k1 = k
      · simp only [dictGet, if_pos hk]
      · simp only [dictGet, if_neg hk]
        exact ih
    · rw [if_neg ha]
      by_cases hk : k1 = k
      · exfalso
        subst hk
        rw [h] at ha
        exact ha rfl
      · simp only [dictGet, if_neg hk]
        exact ih

theorem dictGet_pyUpdate (a b : List (String × String)) (k : String) :
    dictGet (pyUpdate a b) k = firstSome (dictGet b k) (dictGet a k) := by
  unfold pyUpdate
  rw [dictGet_append, dictGet_map_upd]
  cases ha : dictGet a k with
  | none =>
    rw [dictGet_filter_compl a b k ha]
    cases hb : dictGet b k with
    | none => rfl
    | some w => rfl
  | some v =>
    cases hb : dictGet b k with
    | none => simp [hb, firstSome]
    | some w => simp [hb, firstSome]

/-! ### Claims -/

/-- C7, counterexample: the numeric cleaner's class `[\d.]+` also matches a
lone dot, so the digit-free input "a.b" — in which no decimal number occurs —
yields "." instead of passing through unchanged as the claim states. -/
theorem C7_counterexample :
    clean_number "a.b" = "." ∧ ("a.b".toList.all (fun c => !digitChar c)) = true
    ∧ ("." : String) ≠ "a.b" := by decide

/-- C7, amended: for every input, the cleaner returns the maximal run of
digit-or-dot characters starting at the first digit-or-dot character of the
trimmed text (such a run may consist of dots only), and the trimmed text
unchanged when no digit-or-dot character occurs; the optional comparison
prefix and inner whitespace of the pattern never alter the result.  The
claim's three examples hold: "<0.5A" yields "0.5", "Approx 120" yields "120",
"N/A" passes through. -/
theorem C7_amended_thm :
    (∀ s : String, clean_number s =
      (match firstNumRun (pyStripList s.toList) with
       | some g => g.asString
       | none => (pyStripList s.toList).asString))
    ∧ clean_number "<0.5A" = "0.5" ∧ clean_number "Approx 120" = "120"
    ∧ clean_number "N/A" = "N/A" := by
  refine ⟨?_, by decide, by decide, by decide⟩
  intro s
  by_cases hs : s = ""
  · subst hs; rfl
  · unfold clean_number
    rw [if_neg hs, searchNum_eq_firstNumRun]

/-- C10: in the motor engine's generic alias resolution, a merged-map entry
with an empty value is invisible to both the exact and the substring pass —
the map behaves exactly as if the key were absent. -/
theorem C10_thm : ∀ (keys : List String) (pre post : List (String × String)) (k : String)
    (cl ex : Bool),
    ScrapeProduct.get_spec (pre ++ (k, "") :: post) keys cl ex =
      ScrapeProduct.get_spec (pre ++ post) keys cl ex := by
  intro keys
  induction keys with
  | nil => intro pre post k cl ex; rfl
  | cons key rest ih =>
    intro pre post k cl ex
    have he : ScrapeProduct.exactStep (lowerStr key) (k, "") = none := by
      simp [ScrapeProduct.exactStep]
    have hs : ScrapeProduct.substrStep (lowerStr key) (k, "") = none := by
      simp [ScrapeProduct.substrStep]
    simp only [ScrapeProduct.get_spec]
    rw [firstHit_middle_none _ pre post (k, "") he,
      firstHit_middle_none _ pre post (k, "") hs, ih]

/-- C1, counterexample: the battery engine's resolver (scrape_battery.py
get_spec) does not try exact matches first — with the map holding
"operating voltage" before an exactly-matching "voltage" key, the alias
"voltage" resolves to the earlier substring match "7.4", not to the exact
match's "11.1" as the claim requires. -/
theorem C1_counterexample :
    ScrapeBattery.get_spec [("operating voltage", "7.4"), ("voltage", "11.1")]
      ["voltage"] true false = "7.4"
    ∧ ("7.4" : String) ≠ "11.1" := by decide

/-- C1, amended: the claimed alias walk (per alias: case-insensitive exact
pass over the whole map, then the two-directional substring pass; first alias
with any match wins; empty string when none matches) holds of the motor
engine's resolver, with entries carrying an empty value skipped; the battery
engine's resolver instead runs a single one-directional substring pass per
alias.  The claim's concrete example resolves to "11.1" in both engines. -/
theorem C1_amended_thm :
    (∀ (specs : List (String × String)) (keys : List String) (cl : Bool),
      ScrapeProduct.get_spec specs keys cl false = ScrapeProduct.resolveField specs keys cl)
    ∧ ScrapeProduct.get_spec [("operating voltage", "7.4"), ("nominal voltage", "11.1")]
        ["nominal voltage", "voltage"] true false = "11.1"
    ∧ ScrapeBattery.get_spec [("operating voltage", "7.4"), ("nominal voltage", "11.1")]
        ["nominal voltage", "voltage"] true false = "11.1" := by
  refine ⟨?_, by decide, by decide⟩
  intro specs keys cl
  induction keys with
  | nil => rfl
  | cons key rest ih =>
    simp only [ScrapeProduct.get_spec, ScrapeProduct.resolveField, ScrapeProduct.resolveAliases,
      ScrapeProduct.aliasHit]
    cases h1 : firstHit (ScrapeProduct.exactStep (lowerStr key)) specs with
    | some v => simp [h1]
    | none =>
      simp only [h1, Bool.false_eq_true, if_false]
      cases h2 : firstHit (ScrapeProduct.substrStep (lowerStr key)) specs with
      | some v => simp [h2]
      | none =>
        simp only [h2]
        exact ih

/-- C2: the merge `{**regex_specs, **general_info, **spec_table}` resolves
every key with precedence regex < list < table — the merged value of any key
is the table's when present, else the list's, else the regex source's; and
the resolved field over a three-way conflict reflects the table value. -/
theorem C2_thm :
    (∀ (r l t : List (String × String)) (k : String),
      dictGet (mergeSpecs r l t) k
        = firstSome (dictGet t k) (firstSome (dictGet l k) (dictGet r k)))
    ∧ ScrapeProduct.get_spec (mergeSpecs [("voltage", "6")] [("voltage", "9")] [("voltage", "12")])
        ["voltage"] true false = "12" := by
  refine ⟨?_, by decide⟩
  intro r l t k
  unfold mergeSpecs
  rw [dictGet_pyUpdate, dictGet_pyUpdate]

/-- C3, counterexample: `int(num * 100)` truncates toward zero, it does not
round to the nearest integer — the resolved efficiency value "0.856" yields
"85", while rounding 85.6 to the nearest integer gives 86. -/
theorem C3_counterexample :
    ScrapeProduct.get_efficiency [("efficiency", "0.856")] = "85"
    ∧ (round ((856 / 1000 : ℚ) * 100) : ℤ) = 86 ∧ ((85 : ℤ) ≠ 86) := by
  refine ⟨by decide, ?_, by decide⟩
  norm_num [round_eq]

/-- C3, amended: a resolved efficiency value parsing as a number strictly
below 1 is multiplied by 100 and truncated toward zero (Python `int()`,
modulo the binary floating-point rounding of the product, which the exact
decimal model abstracts); any other value is reported unchanged.  The
claim's examples hold: "0.85" resolves to "85" and "85" to "85". -/
theorem C3_amended_thm :
    (∀ (specs : List (String × String)) (q : PyNum),
      pyFloat (ScrapeProduct.get_spec specs ["efficiency"] true false) = some q →
      q.ltOne = true →
      ScrapeProduct.get_efficiency specs = toString (pyTrunc q.mul100))
    ∧ (∀ (specs : List (String × String)) (q : PyNum),
      pyFloat (ScrapeProduct.get_spec specs ["efficiency"] true false) = some q →
      q.ltOne = false →
      ScrapeProduct.get_efficiency specs = ScrapeProduct.get_spec specs ["efficiency"] true false)
    ∧ ScrapeProduct.get_efficiency [("efficiency", "0.85")] = "85"
    ∧ ScrapeProduct.get_efficiency [("efficiency", "85")] = "85" := by
  refine ⟨?_, ?_, by decide, by decide⟩
  · intro specs q h hq
    simp only [ScrapeProduct.get_efficiency]
    by_cases hv : ScrapeProduct.get_spec specs ["efficiency"] true false = ""
    · rw [hv] at h
      exact Option.noConfusion h
    · rw [if_neg hv, h]
      simp only [hq, if_true]
  · intro specs q h hq
    simp only [ScrapeProduct.get_efficiency]
    by_cases hv : ScrapeProduct.get_spec specs ["efficiency"] true false = ""
    · rw [hv] at h
      exact Option.noConfusion h
    · rw [if_neg hv, h]
      simp only [hq, Bool.false_eq_true, if_false]

/-- C3, witness: the fraction conjunct applied at the map with efficiency
"0.856", which parses to 856/1000. -/
theorem C3_amended_witness :
    ScrapeProduct.get_efficiency [("efficiency", "0.856")]
      = toString (pyTrunc (PyNum.mul100 ⟨856, 3⟩)) :=
  C3_amended_thm.1 [("efficiency", "0.856")] ⟨856, 3⟩ (by decide) (by decide)

/-- C4, counterexample: grams indicated only by the value are not recognized
— the entry key "weight" with value "1500 g" resolves the mass field to the
empty string (the grams branch looks for "(g)" in the key only), not to
"1.5" as the claim requires. -/
theorem C4_counterexample :
    ScrapeProduct.get_weight [("weight", "1500 g")] = ""
    ∧ ("" : String) ≠ "1.5" := by decide

/-- C4, amended: the mass resolver prefers a matched non-shipping key;
kilograms are recognized via "(kg)" in the key or "kg" in the value and
reported as the cleaned number as-is; grams are recognized only via "(g)" in
the matched key (never via the value) and divided by 1000.  A mass under a
grams-marked key "weight (g)" with value "1500 g" and one under key "weight"
with value "1.5 kg" both resolve to "1.5". -/
theorem C4_amended_thm :
    (∀ (pre : List (String × String)) (k v : String) (rest : List (String × String)),
      (∀ e ∈ pre, ScrapeProduct.weightStep e = none) →
      ScrapeProduct.weightKey k = true →
      ScrapeProduct.weightKgCond k v = true →
      ScrapeProduct.get_weight (pre ++ (k, v) :: rest) = clean_number v)
    ∧ (∀ (pre : List (String × String)) (k v : String) (rest : List (String × String)) (q : PyNum),
      (∀ e ∈ pre, ScrapeProduct.weightStep e = none) →
      ScrapeProduct.weightKey k = true →
      ScrapeProduct.weightKgCond k v = false →
      strIn "(g)" (lowerStr k) = true →
      pyFloat (clean_number v) = some q →
      ScrapeProduct.get_weight (pre ++ (k, v) :: rest) = pyFloatStr q.div1000)
    ∧ ScrapeProduct.get_weight [("weight (g)", "1500 g")] = "1.5"
    ∧ ScrapeProduct.get_weight [("weight", "1.5 kg")] = "1.5" := by
  refine ⟨?_, ?_, by decide, by decide⟩
  · intro pre k v rest hpre hkey hkg
    unfold ScrapeProduct.get_weight
    rw [firstHit_append_none _ pre _ hpre,
      firstHit_cons_some _ _ _ (clean_number v)
        (by simp [ScrapeProduct.weightStep, hkey, hkg])]
  · intro pre k v rest q hpre hkey hkg hg hq
    unfold ScrapeProduct.get_weight
    rw [firstHit_append_none _ pre _ hpre,
      firstHit_cons_some _ _ _ (pyFloatStr q.div1000)
        (by simp [ScrapeProduct.weightStep, hkey, hkg, hg, hq])]

/-- C4, witness: the grams conjunct applied at key "weight (g)" and value
"1500", which parses to the integer 1500. -/
theorem C4_amended_witness :
    ScrapeProduct.get_weight [("weight (g)", "1500")] = pyFloatStr (PyNum.div1000 ⟨1500, 0⟩) :=
  C4_amended_thm.2.1 [] "weight (g)" "1500" [] ⟨1500, 0⟩ (by simp) (by decide) (by decide)
    (by decide) (by decide)

/-- C5: the no-load-current resolver divides the extracted number by 1000
whenever the matched key or value contains "ma" (the milliamp indication),
and reports the cleaned value unchanged otherwise; "150mA" resolves to
"0.15". -/
theorem C5_thm :
    (∀ (pre : List (String × String)) (k v : String) (rest : List (String × String)) (q : PyNum),
      (∀ e ∈ pre, ScrapeProduct.nlcStep e = none) →
      ScrapeProduct.nlcKey k = true →
      ScrapeProduct.maCond k v = true →
      pyFloat (clean_number v) = some q →
      ScrapeProduct.get_no_load_current (pre ++ (k, v) :: rest) = pyFloatStr q.div1000)
    ∧ (∀ (pre : List (String × String)) (k v : String) (rest : List (String × String)),
      (∀ e ∈ pre, ScrapeProduct.nlcStep e = none) →
      ScrapeProduct.nlcKey k = true →
      ScrapeProduct.maCond k v = false →
      ScrapeProduct.get_no_load_current (pre ++ (k, v) :: rest) = clean_number v)
    ∧ ScrapeProduct.get_no_load_current [("no load current", "150mA")] = "0.15" := by
  refine ⟨?_, ?_, by decide⟩
  · intro pre k v rest q hpre hkey hma hq
    unfold ScrapeProduct.get_no_load_current
    rw [firstHit_append_none _ pre _ hpre,
      firstHit_cons_some _ _ _ (pyFloatStr q.div1000)
        (by simp [ScrapeProduct.nlcStep, hkey, hma, hq])]
    rfl
  · intro pre k v rest hpre hkey hma
    unfold ScrapeProduct.get_no_load_current
    rw [firstHit_append_none _ pre _ hpre,
      firstHit_cons_some _ _ _ (clean_number v)
        (by simp [ScrapeProduct.nlcStep, hkey, hma])]
    rfl

/-- C5, witness: the milliamp conjunct applied at key "no load current" and
value "150mA", which cleans to "150" and parses to the integer 150. -/
theorem C5_witness :
    ScrapeProduct.get_no_load_current [("no load current", "150mA")]
      = pyFloatStr (PyNum.div1000 ⟨150, 0⟩) :=
  C5_thm.1 [] "no load current" "150mA" [] ⟨150, 0⟩ (by simp) (by decide) (by decide) (by decide)

/-- C6: the composite dimension resolver prefers the first explicit
combined-dimensions entry (a "dimension" key naming no individual axis and
not a shipping key); with no such entry it joins the three individually
resolved axes with the multiplication separator and unit suffix only when
all three are non-empty, and yields the empty string otherwise.  With
thickness "5", breadth "30", length "25" and no combined key the composite
is "5 × 30 × 25 mm"; with breadth missing it is empty. -/
theorem C6_thm :
    (∀ (pre : List (String × String)) (k v : String) (rest : List (String × String)),
      (∀ e ∈ pre, ScrapeBattery.fullDimStep e = none) →
      ScrapeBattery.fullDimKey k = true →
      ScrapeBattery.get_full_dimensions (pre ++ (k, v) :: rest) = clean_value v)
    ∧ (∀ specs : List (String × String),
      (∀ e ∈ specs, ScrapeBattery.fullDimStep e = none) →
      ScrapeBattery.get_dimension specs "thickness" ≠ "" →
      (if ScrapeBattery.get_dimension specs "breadth" = ""
       then ScrapeBattery.get_dimension specs "width"
       else ScrapeBattery.get_dimension specs "breadth") ≠ "" →
      ScrapeBattery.get_dimension specs "length" ≠ "" →
      ScrapeBattery.get_full_dimensions specs =
        ScrapeBattery.get_dimension specs "thickness" ++ " × " ++
          (if ScrapeBattery.get_dimension specs "breadth" = ""
           then ScrapeBattery.get_dimension specs "width"
           else ScrapeBattery.get_dimension specs "breadth") ++ " × " ++
          ScrapeBattery.get_dimension specs "length" ++ " mm")
    ∧ (∀ specs : List (String × String),
      (∀ e ∈ specs, ScrapeBattery.fullDimStep e = none) →
      (ScrapeBattery.get_dimension specs "thickness" = "" ∨
       (if ScrapeBattery.get_dimension specs "breadth" = ""
        then ScrapeBattery.get_dimension specs "width"
        else ScrapeBattery.get_dimension specs "breadth") = "" ∨
       ScrapeBattery.get_dimension specs "length" = "") →
      ScrapeBattery.get_full_dimensions specs = "")
    ∧ ScrapeBattery.get_full_dimensions [("thickness", "5"), ("breadth", "30"), ("length", "25")]
        = "5 × 30 × 25 mm"
    ∧ ScrapeBattery.get_full_dimensions [("thickness", "5"), ("length", "25")] = "" := by
  refine ⟨?_, ?_, ?_, by decide, by decide⟩
  · intro pre k v rest hpre hk
    unfold ScrapeBattery.get_full_dimensions
    rw [firstHit_append_none _ pre _ hpre,
      firstHit_cons_some _ _ _ (clean_value v) (by simp [ScrapeBattery.fullDimStep, hk])]
  · intro specs hall ht hb hl
    have h0 := firstHit_none_of_all ScrapeBattery.fullDimStep specs hall
    unfold ScrapeBattery.get_full_dimensions
    rw [h0]
    exact if_pos ⟨ht, hb, hl⟩
  · intro specs hall hdisj
    have h0 := firstHit_none_of_all ScrapeBattery.fullDimStep specs hall
    unfold ScrapeBattery.get_full_dimensions
    rw [h0]
    rcases hdisj with h | h | h
    · exact if_neg (fun hcon => hcon.1 h)
    · exact if_neg (fun hcon => hcon.2.1 h)
    · exact if_neg (fun hcon => hcon.2.2 h)

/-- C6, witness: the combined-key conjunct applied at key "dimensions" with
value "50 x 30 mm" and an empty prior segment. -/
theorem C6_witness :
    ScrapeBattery.get_full_dimensions [("dimensions", "50 x 30 mm")] = clean_value "50 x 30 mm" :=
  C6_thm.1 [] "dimensions" "50 x 30 mm" [] (by simp) (by decide)

/-- C8, counterexample: the motor engine never checks the product name — on
a parsed document whose name extraction produced the empty string (and with
no regions and no regex matches at all) it still returns a full 21-field
record with an empty Product Name, instead of reporting absence as the claim
requires. -/
theorem C8_counterexample :
    (ScrapeProduct.scrape_product "" "u" "Unknown" "" [] [] []).length = 21
    ∧ dictGet (ScrapeProduct.scrape_product "" "u" "Unknown" "" [] [] []) "Product Name"
        = some "" := by decide

/-- C8, amended: the battery engine reports absence (None) exactly when the
extracted product name is empty, and with a non-empty name it returns a
record for every input — in particular, with zero harvested entries every
spec-derived field is the empty string; the motor engine performs no name
check and always returns a record (its empty-name filtering happens in the
batch caller scrape_product_safe, outside the engine). -/
theorem C8_amended_thm :
    (∀ url stock price : String, ScrapeBattery.scrape_battery "" url stock price [] [] = none)
    ∧ (∀ (name url stock price : String) (gi st : List (String × String)), name ≠ "" →
        ∃ rec, ScrapeBattery.scrape_battery name url stock price gi st = some rec)
    ∧ (∀ name url stock price : String, name ≠ "" →
        ScrapeBattery.scrape_battery name url stock price [] [] =
          some [("Product Name", name), ("URL", url), ("Stock Status", stock),
                ("Price (INR)", price), ("Model No.", ""), ("Nominal Voltage (V)", ""),
                ("Capacity (mAh)", ""), ("Continuous Charge Current", ""),
                ("Continuous Discharge Current", ""), ("Max Charge Rate", ""),
                ("Max Discharge Rate", ""), ("Connector Type", ""), ("Life Cycles", ""),
                ("Application", ""), ("Thickness (mm)", ""), ("Breadth (mm)", ""),
                ("Length (mm)", ""), ("Dimensions", ""), ("Weight (g)", ""),
                ("Shipping Weight (kg)", ""), ("Shipping Dimensions (cm)", ""),
                ("Additional Specs", "")]) := by
  refine ⟨?_, ?_, ?_⟩
  · intro url stock price
    rfl
  · intro name url stock price gi st h
    unfold ScrapeBattery.scrape_battery
    rw [if_neg h]
    exact ⟨_, rfl⟩
  · intro name url stock price h
    unfold ScrapeBattery.scrape_battery
    rw [if_neg h]
    rfl

/-- C8, witness: the empty-regions conjunct applied at the name "B". -/
theorem C8_amended_witness :
    ScrapeBattery.scrape_battery "B" "u" "In Stock" "100" [] [] =
      some [("Product Name", "B"), ("URL", "u"), ("Stock Status", "In Stock"),
            ("Price (INR)", "100"), ("Model No.", ""), ("Nominal Voltage (V)", ""),
            ("Capacity (mAh)", ""), ("Continuous Charge Current", ""),
            ("Continuous Discharge Current", ""), ("Max Charge Rate", ""),
            ("Max Discharge Rate", ""), ("Connector Type", ""), ("Life Cycles", ""),
            ("Application", ""), ("Thickness (mm)", ""), ("Breadth (mm)", ""),
            ("Length (mm)", ""), ("Dimensions", ""), ("Weight (g)", ""),
            ("Shipping Weight (kg)", ""), ("Shipping Dimensions (cm)", ""),
            ("Additional Specs", "")] :=
  C8_amended_thm.2.2 "B" "u" "In Stock" "100" (by decide)

/-- C9: every record the motor engine produces carries exactly the declared
column set CSV_COLUMNS in declared order, for every input; every record the
battery engine produces (that is, whenever it does not signal absence)
carries exactly its declared column set in declared order. -/
theorem C9_thm :
    (∀ (name url stock price : String) (r gi st : List (String × String)),
      (ScrapeProduct.scrape_product name url stock price r gi st).map Prod.fst
        = ScrapeProduct.CSV_COLUMNS)
    ∧ (∀ (name url stock price : String) (gi st rec : List (String × String)),
      ScrapeBattery.scrape_battery name url stock price gi st = some rec →
      rec.map Prod.fst = ScrapeBattery.CSV_COLUMNS) := by
  constructor
  · intro name url stock price r gi st
    rfl
  · intro name url stock price gi st rec h
    by_cases hn : name = ""
    · unfold ScrapeBattery.scrape_battery at h
      rw [if_pos hn] at h
      exact Option.noConfusion h
    · unfold ScrapeBattery.scrape_battery at h
      rw [if_neg hn] at h
      injection h with h2
      subst h2
      rfl

/-- C9, witness: the battery conjunct applied at a concrete record. -/
theorem C9_witness :
    ([("Product Name", "B"), ("URL", "u"), ("Stock Status", "s"),
      ("Price (INR)", "p"), ("Model No.", ""), ("Nominal Voltage (V)", ""),
      ("Capacity (mAh)", ""), ("Continuous Charge Current", ""),
      ("Continuous Discharge Current", ""), ("Max Charge Rate", ""),
      ("Max Discharge Rate", ""), ("Connector Type", ""), ("Life Cycles", ""),
      ("Application", ""), ("Thickness (mm)", ""), ("Breadth (mm)", ""),
      ("Length (mm)", ""), ("Dimensions", ""), ("Weight (g)", ""),
      ("Shipping Weight (kg)", ""), ("Shipping Dimensions (cm)", ""),
      ("Additional Specs", "")] : List (String × String)).map Prod.fst
      = ScrapeBattery.CSV_COLUMNS :=
  C9_thm.2 "B" "u" "s" "p" [] [] _ rfl
